import Mathlib

/-
Verification of the extraction logic of the repositum scraper
(src/scraping.py).  The Python functions are shallowly embedded as Lean
definitions; bs4 find results are modelled as optional fields of the input
structures (HTML parsing is an external collaborator).  Note that in bs4,
Tag.__bool__ returns True ("A tag is non-None even if it has no contents"),
so a Python truthiness test `if not x:` on a find result is a test for None.
-/

namespace Repositum

/-- Whitespace characters recognised by the Python functions str.split and str.strip,
restricted to the ASCII range (space, tab, newline, carriage return,
vertical tab, form feed). -/
def isPySpace (c : Char) : Bool :=
  c == ' ' || c == '\t' || c == '\n' || c == '\r' || c == Char.ofNat 11 || c == Char.ofNat 12

/-- Models the get_degree expression that joins raw_text.split() with the
empty string:
splitting on whitespace runs and joining with the empty string deletes
exactly the whitespace characters, keeping all others in order. -/
def stripAllWs (l : List Char) : List Char := l.filter (fun c => !isPySpace c)

/-- Models Python `s.strip()`: remove leading and trailing whitespace. -/
def pyStrip (s : String) : String :=
  String.mk (((s.data.dropWhile isPySpace).reverse.dropWhile isPySpace).reverse)

/-- The pattern `pat` occurs in `s` at position `i`. -/
def MatchAt (pat s : List Char) (i : Nat) : Prop :=
  (s.drop i).take pat.length = pat

instance (pat s : List Char) (i : Nat) : Decidable (MatchAt pat s i) := by
  unfold MatchAt; infer_instance

/-- Position `i` is the first occurrence of `pat` in `s`. -/
def FirstOccurrence (pat s : List Char) (i : Nat) : Prop :=
  MatchAt pat s i ∧ ∀ j, j < i → ¬ MatchAt pat s j

instance (pat s : List Char) (i : Nat) : Decidable (FirstOccurrence pat s i) := by
  unfold FirstOccurrence; infer_instance

/-- Models Python `s.find(pat)` restricted to the found case: the index of
the first occurrence of `pat` in `s`, or `none`.  the Python test `pat in s` is
`(findSub pat s).isSome`. -/
def findSub : List Char → List Char → Option Nat
  | pat, [] => if pat = [] then some 0 else none
  | pat, s@(_ :: rest) =>
    if s.take pat.length = pat then some 0 else (findSub pat rest).map (· + 1)

/-- Models the Python membership test `pat in s` for strings. -/
def containsSub (pat s : List Char) : Bool := (findSub pat s).isSome

/-- Models Python `s.find(pat)` including the not-found case, which yields -1. -/
def strFind (pat s : List Char) : Int :=
  match findSub pat s with
  | some i => (i : Int)
  | none => -1

/-- The substring `[a, b)` of `l` (both bounds are nonnegative positions;
an empty list results when `b ≤ a`). -/
def sliceNat (l : List Char) (a b : Nat) : List Char := (l.drop a).take (b - a)

/-- Models the Python slice `l[a:e]` for a nonnegative start `a` and a
possibly negative stop `e` (a negative stop counts from the end, clamped
at zero, exactly as in Python). -/
def pySlice (l : List Char) (a : Nat) (e : Int) : List Char :=
  let stop : Nat := if e < 0 then ((l.length : Int) + e).toNat else e.toNat
  (l.drop a).take (stop - a)

/-- The English opening anchor from get_degree. -/
def opening_text_en : List Char := "degreeof".toList

/-- The English closing anchor from get_degree. -/
def closing_text_en : List Char := "by".toList

/-- The German opening anchor from get_degree. -/
def opening_text_de : List Char := "desStudiums".toList

/-- The German closing anchor from get_degree. -/
def closing_text_de : List Char := "eingereichtvon".toList

/-- Embedding of get_degree (src/scraping.py:164-188): strip all whitespace,
try the English anchor pair, then the German one; in a matching branch the
closing anchor is searched from the start of the whole stripped text and a
failed search yields -1, which the Python slice interprets as length - 1. -/
def get_degree (raw_text : List Char) : Option (List Char) :=
  let text := stripAllWs raw_text
  match findSub opening_text_en text with
  | some i => some (pySlice text (i + opening_text_en.length) (strFind closing_text_en text))
  | none =>
    match findSub opening_text_de text with
    | some i => some (pySlice text (i + opening_text_de.length) (strFind closing_text_de text))
    | none => none

theorem findSub_some_first :
    ∀ {s : List Char} {pat : List Char} {i : Nat},
      findSub pat s = some i → FirstOccurrence pat s i := by
  intro s
  induction s with
  | nil =>
    intro pat i h
    unfold findSub at h
    by_cases hp : pat = ([] : List Char)
    · simp [hp] at h
      subst hp
      refine ⟨by simp [MatchAt], ?_⟩
      omega
    · simp [hp] at h
  | cons c rest ih =>
    intro pat i h
    unfold findSub at h
    by_cases hm : (c :: rest).take pat.length = pat
    · simp [hm] at h
      subst h
      exact ⟨by simpa [MatchAt] using hm, by omega⟩
    · simp [hm] at h
      obtain ⟨i0, hi0, hrec⟩ := h
      obtain ⟨h1, h2⟩ := ih hi0
      subst hrec
      constructor
      · simpa [MatchAt] using h1
      · intro j hj
        cases j with
        | zero => simpa [MatchAt] using hm
        | succ j0 =>
          intro hmj
          exact h2 j0 (by omega) (by simpa [MatchAt] using hmj)

theorem findSub_none_noOcc :
    ∀ {s : List Char} {pat : List Char},
      findSub pat s = none → ∀ i, ¬ MatchAt pat s i := by
  intro s
  induction s with
  | nil =>
    intro pat h i hm
    unfold findSub at h
    by_cases hp : pat = ([] : List Char)
    · simp [hp] at h
    · unfold MatchAt at hm
      simp at hm
      exact hp hm
  | cons c rest ih =>
    intro pat h i hm
    unfold findSub at h
    by_cases hmm : (c :: rest).take pat.length = pat
    · simp [hmm] at h
    · simp [hmm] at h
      cases i with
      | zero => exact hmm (by simpa [MatchAt] using hm)
      | succ i0 => exact ih h i0 (by simpa [MatchAt] using hm)

theorem firstOcc_findSub {pat s : List Char} {i : Nat}
    (h : FirstOccurrence pat s i) : findSub pat s = some i := by
  cases hfs : findSub pat s with
  | none => exact absurd h.1 (findSub_none_noOcc hfs i)
  | some i0 =>
    obtain ⟨h1, h2⟩ := findSub_some_first hfs
    rcases Nat.lt_trichotomy i i0 with hlt | heq | hgt
    · exact absurd h.1 (h2 i hlt)
    · rw [heq]
    · exact absurd h1 (h.2 i0 hgt)

theorem pySlice_ofNat (l : List Char) (a b : Nat) :
    pySlice l a (b : Int) = sliceNat l a b := by
  simp only [pySlice, sliceNat]
  congr 1

theorem pySlice_negOne (l : List Char) (a : Nat) :
    pySlice l a (-1) = sliceNat l a (l.length - 1) := by
  simp only [pySlice, sliceNat]
  congr 1
  rw [if_pos (by norm_num)]
  omega

theorem containsSub_false_findSub {pat s : List Char}
    (h : containsSub pat s = false) : findSub pat s = none := by
  unfold containsSub at h
  cases h' : findSub pat s with
  | none => rfl
  | some k => rw [h'] at h; simp at h

/-- Whitespace insertion: `InsWs t t'` holds when `t'` is obtained from `t`
by inserting whitespace characters at arbitrary positions. -/
inductive InsWs : List Char → List Char → Prop where
  | nil : InsWs [] []
  | keep (c : Char) {t t' : List Char} : InsWs t t' → InsWs (c :: t) (c :: t')
  | ins (c : Char) {t t' : List Char} : isPySpace c = true → InsWs t t' →
      InsWs t (c :: t')

theorem InsWs.stripAllWs_eq {t t' : List Char} (h : InsWs t t') :
    stripAllWs t' = stripAllWs t := by
  induction h with
  | nil => rfl
  | keep c _ ih => simp only [stripAllWs, List.filter_cons] at *; rw [ih]
  | ins c hsp _ ih => simp only [stripAllWs, List.filter_cons, hsp] at *; simpa using ih

end Repositum

namespace Repositum

/-- C1: on a whitespace-stripped text, get_degree returns the substring from
just after the first occurrence of the matching opening anchor up to
(exclusive) the index of the first occurrence of the matching closing
anchor, the latter searched from the start of the whole stripped text;
English anchors are tried first, the German pair only when the English
opening anchor is absent. -/
theorem get_degree_anchor_window (raw : List Char) :
    (∀ i j, FirstOccurrence opening_text_en (stripAllWs raw) i →
        FirstOccurrence closing_text_en (stripAllWs raw) j →
        get_degree raw =
          some (sliceNat (stripAllWs raw) (i + opening_text_en.length) j))
    ∧ (containsSub opening_text_en (stripAllWs raw) = false →
        ∀ i j, FirstOccurrence opening_text_de (stripAllWs raw) i →
          FirstOccurrence closing_text_de (stripAllWs raw) j →
          get_degree raw =
            some (sliceNat (stripAllWs raw) (i + opening_text_de.length) j)) := by
  constructor
  · intro i j h1 h2
    have hf := firstOcc_findSub h1
    have hc := firstOcc_findSub h2
    simp only [get_degree, strFind, hf, hc, pySlice_ofNat]
  · intro hen i j h1 h2
    have hnone := containsSub_false_findSub hen
    have hf := firstOcc_findSub h1
    have hc := firstOcc_findSub h2
    simp only [get_degree, strFind, hnone, hf, hc, pySlice_ofNat]

/-- Witness for C1: the two examples given in the spec.  The German stripped text
desStudiumsInformatikeingereichtvon yields Informatik, and the English
text degree of Master of Science by the yields MasterofScience. -/
theorem get_degree_anchor_window_witness :
    (FirstOccurrence opening_text_en
        (stripAllWs "degree of Master of Science by the".toList) 0
      ∧ FirstOccurrence closing_text_en
        (stripAllWs "degree of Master of Science by the".toList) 23
      ∧ get_degree "degree of Master of Science by the".toList =
          some "MasterofScience".toList)
    ∧ (containsSub opening_text_en
        (stripAllWs "desStudiumsInformatikeingereichtvon".toList) = false
      ∧ FirstOccurrence opening_text_de
        (stripAllWs "desStudiumsInformatikeingereichtvon".toList) 0
      ∧ FirstOccurrence closing_text_de
        (stripAllWs "desStudiumsInformatikeingereichtvon".toList) 21
      ∧ get_degree "desStudiumsInformatikeingereichtvon".toList =
          some "Informatik".toList) := by
  refine ⟨⟨by decide, by decide, ?_⟩, ⟨by decide, by decide, by decide, ?_⟩⟩
  · have h := (get_degree_anchor_window "degree of Master of Science by the".toList).1
      0 23 (by decide) (by decide)
    rw [h]; decide
  · have h := (get_degree_anchor_window "desStudiumsInformatikeingereichtvon".toList).2
      (by decide) 0 21 (by decide) (by decide)
    rw [h]; decide

/-- C5: get_degree is invariant under insertion of whitespace characters
anywhere in the input (a superset of the insertions the claim allows, strictly inside
word tokens), because the function first deletes every whitespace
character. -/
theorem get_degree_ws_insertion (t t' : List Char) (h : InsWs t t') :
    get_degree t' = get_degree t := by
  simp only [get_degree, h.stripAllWs_eq]

/-- Witness for C5: inserting a space inside the value token of
degreeofMby leaves the extracted degree unchanged. -/
theorem get_degree_ws_insertion_witness :
    InsWs "degreeofMby".toList "degreeofM by".toList
    ∧ get_degree "degreeofM by".toList = get_degree "degreeofMby".toList := by
  have h : InsWs "degreeofMby".toList "degreeofM by".toList := by
    repeat first
      | exact InsWs.nil
      | apply InsWs.keep
      | refine InsWs.ins _ rfl ?_
  exact ⟨h, get_degree_ws_insertion _ _ h⟩

/-- C10: when the opening anchor is present but the matching closing anchor
is absent, the failed search yields -1 and the Python slice stops just
before the last character of the stripped text, so get_degree still returns
a value: the substring from just after the opening anchor up to (exclusive)
the last character. -/
theorem get_degree_missing_closing (raw : List Char) :
    (∀ i, FirstOccurrence opening_text_en (stripAllWs raw) i →
        containsSub closing_text_en (stripAllWs raw) = false →
        get_degree raw =
          some (sliceNat (stripAllWs raw) (i + opening_text_en.length)
            ((stripAllWs raw).length - 1)))
    ∧ (containsSub opening_text_en (stripAllWs raw) = false →
        ∀ i, FirstOccurrence opening_text_de (stripAllWs raw) i →
          containsSub closing_text_de (stripAllWs raw) = false →
          get_degree raw =
            some (sliceNat (stripAllWs raw) (i + opening_text_de.length)
              ((stripAllWs raw).length - 1))) := by
  constructor
  · intro i h1 h2
    have hf := firstOcc_findSub h1
    have hc := containsSub_false_findSub h2
    simp only [get_degree, strFind, hf, hc, pySlice_negOne]
  · intro hen i h1 h2
    have hnone := containsSub_false_findSub hen
    have hf := firstOcc_findSub h1
    have hc := containsSub_false_findSub h2
    simp only [get_degree, strFind, hnone, hf, hc, pySlice_negOne]

/-- Witness for C10: degreeofMasterX has no closing anchor by, and the
extractor returns Master, silently dropping the final character; likewise
desStudiumsXY with no eingereichtvon yields X. -/
theorem get_degree_missing_closing_witness :
    (FirstOccurrence opening_text_en (stripAllWs "degreeofMasterX".toList) 0
      ∧ containsSub closing_text_en (stripAllWs "degreeofMasterX".toList) = false
      ∧ get_degree "degreeofMasterX".toList = some "Master".toList)
    ∧ (containsSub opening_text_en (stripAllWs "desStudiumsXY".toList) = false
      ∧ FirstOccurrence opening_text_de (stripAllWs "desStudiumsXY".toList) 0
      ∧ containsSub closing_text_de (stripAllWs "desStudiumsXY".toList) = false
      ∧ get_degree "desStudiumsXY".toList = some ['X']) := by
  refine ⟨⟨by decide, by decide, ?_⟩, ⟨by decide, by decide, by decide, ?_⟩⟩
  · have h := (get_degree_missing_closing "degreeofMasterX".toList).1
      0 (by decide) (by decide)
    rw [h]; decide
  · have h := (get_degree_missing_closing "desStudiumsXY".toList).2
      (by decide) 0 (by decide) (by decide)
    rw [h]; decide

end Repositum

namespace Repositum

/-- A bs4 tag as used by the extractors: only its rendered text matters. -/
structure BTag where
  text : String
  deriving DecidableEq

/-- A metadata row of the publication page: the two fields are the results
of the two class-selector find calls performed on the row
(metadataFieldLabel and metadataFieldValue); none models a missing div. -/
structure MetaRow where
  label : Option BTag
  value : Option BTag
  deriving DecidableEq

/-- Models the dict update of get_resource_attributes / get_thesis_info:
when the key is present, append a comma-space and the new value to the
existing entry in place; otherwise add the pair at the end (Python dicts
preserve insertion order). -/
def updateAttr : List (String × String) → String → String → List (String × String)
  | [], k, v => [(k, v)]
  | (k0, v0) :: rest, k, v =>
    if k0 = k then (k0, v0 ++ ", " ++ v) :: rest else (k0, v0) :: updateAttr rest k v

/-- Models the plain dict assignment d[k] = v: replace in place or append. -/
def setItem : List (String × String) → String → String → List (String × String)
  | [], k, v => [(k, v)]
  | (k0, v0) :: rest, k, v =>
    if k0 = k then (k0, v) :: rest else (k0, v0) :: setItem rest k v

/-- Dictionary lookup on the association-list model. -/
def lookupAttr : List (String × String) → String → Option String
  | [], _ => none
  | (k0, v0) :: rest, k => if k0 = k then some v0 else lookupAttr rest k

/-- The loop body result of get_resource_attributes for one row: the
stripped (label, value) pair when both divs were found (an `if label and
value:` test; bs4 tags are always truthy, so this is a not-None test),
otherwise nothing. -/
def rowEntry (r : MetaRow) : Option (String × String) :=
  match r.label, r.value with
  | some l, some v => some (pyStrip l.text, pyStrip v.text)
  | _, _ => none

/-- Loop of get_resource_attributes (src/scraping.py:241-260) with its
accumulating dictionary made explicit. -/
def resourceLoop : List MetaRow → List (String × String) → List (String × String)
  | [], acc => acc
  | r :: rs, acc =>
    match rowEntry r with
    | some (k, v) => resourceLoop rs (updateAttr acc k v)
    | none => resourceLoop rs acc

/-- Embedding of get_resource_attributes (src/scraping.py:241-260). -/
def get_resource_attributes (rows : List MetaRow) : List (String × String) :=
  resourceLoop rows []

/-- The allow-list of recognised labels from src/scraping.py:22-43. -/
def INTERESTING_INFO : List String :=
  ["dc.contributor.advisor",
   "dc.contributor.author",
   "dc.date.accessioned",
   "dc.date.issued",
   "dc.date.submitted",
   "dc.identifier.uri",
   "dc.language.iso",
   "dc.subject",
   "cd.title",
   "dc.type",
   "cd.contributor.assistant",
   "tux.publication.orgunit",
   "cd.type.qualificationlevel",
   "dc.identifier.libraryid",
   "dc.description.numberOfPages",
   "dc.thesistype",
   "item.openairetype",
   "item.openaccessfulltext",
   "crisitem.author.dept",
   "crisitem.author.parentorg"]

/-- Row loop of get_thesis_info (src/scraping.py:126-134).  The source
guards only on the label div; when the label div is present the value div
is dereferenced unconditionally, so a row with a label but no value raises
an AttributeError (None has no attribute text), modelled as the error
case. -/
def thesisRowsLoop : List MetaRow → List (String × String) →
    Except String (List (String × String))
  | [], acc => Except.ok acc
  | r :: rs, acc =>
    match r.label with
    | none => thesisRowsLoop rs acc
    | some l =>
      match r.value with
      | none => Except.error "AttributeError: NoneType object has no attribute text"
      | some v =>
        let info := pyStrip l.text
        let data := pyStrip v.text
        if info ∈ INTERESTING_INFO then thesisRowsLoop rs (updateAttr acc info data)
        else thesisRowsLoop rs acc

theorem resourceLoop_append (xs ys : List MetaRow) (acc : List (String × String)) :
    resourceLoop (xs ++ ys) acc = resourceLoop ys (resourceLoop xs acc) := by
  induction xs generalizing acc with
  | nil => rfl
  | cons r rs ih =>
    simp only [List.cons_append, resourceLoop]
    cases rowEntry r with
    | none => exact ih acc
    | some p => exact ih (updateAttr acc p.1 p.2)

theorem thesisRowsLoop_append (xs ys : List MetaRow) (acc : List (String × String)) :
    thesisRowsLoop (xs ++ ys) acc =
      match thesisRowsLoop xs acc with
      | Except.ok a => thesisRowsLoop ys a
      | Except.error e => Except.error e := by
  induction xs generalizing acc with
  | nil => rfl
  | cons r rs ih =>
    simp only [List.cons_append, thesisRowsLoop]
    cases hl : r.label with
    | none => exact ih acc
    | some l =>
      cases hv : r.value with
      | none => rfl
      | some v =>
        by_cases hi : pyStrip l.text ∈ INTERESTING_INFO
        · simp only [hi, if_pos]
          exact ih (updateAttr acc (pyStrip l.text) (pyStrip v.text))
        · simp only [hi, if_neg, ite_false]
          exact ih acc

theorem strAppend_assoc (a b c : String) : (a ++ b) ++ c = a ++ (b ++ c) := by
  apply String.ext
  simp [String.data_append, List.append_assoc]

/-- The ordered list of stripped values contributed to key `k` by the rows
that pass the guard of get_resource_attributes and whose stripped label is
`k`. -/
def contributions (rows : List MetaRow) (k : String) : List String :=
  (rows.filterMap rowEntry).filterMap (fun p => if p.1 = k then some p.2 else none)

/-- Fold extending an existing dictionary value by a list of further values,
each preceded by the separator. -/
def extendVal (v : String) (l : List String) : String :=
  l.foldl (fun a b => a ++ ", " ++ b) v

/-- List of values joined by the fixed separator of the extractor. -/
def joinComma : List String → String
  | [] => ""
  | [v] => v
  | v :: w :: vs => v ++ ", " ++ joinComma (w :: vs)

theorem extendVal_joinComma (v : String) (vs : List String) :
    extendVal v vs = joinComma (v :: vs) := by
  induction vs generalizing v with
  | nil => rfl
  | cons w ws ih =>
    rw [show extendVal v (w :: ws) = extendVal (v ++ ", " ++ w) ws from rfl, ih]
    cases ws with
    | nil => rfl
    | cons u us =>
      simp only [joinComma]
      simp [strAppend_assoc]

theorem contributions_cons (r : MetaRow) (rs : List MetaRow) (k : String) :
    contributions (r :: rs) k =
      match rowEntry r with
      | none => contributions rs k
      | some (k1, v1) =>
        if k1 = k then v1 :: contributions rs k else contributions rs k := by
  cases hre : rowEntry r with
  | none => simp [contributions, List.filterMap_cons, hre]
  | some p =>
    obtain ⟨k1, v1⟩ := p
    by_cases h : k1 = k <;>
      simp [contributions, List.filterMap_cons, hre, h]

theorem lookupAttr_updateAttr (acc : List (String × String)) (k0 v k : String) :
    lookupAttr (updateAttr acc k0 v) k =
      if k0 = k then
        match lookupAttr acc k with
        | some w => some (w ++ ", " ++ v)
        | none => some v
      else lookupAttr acc k := by
  induction acc with
  | nil => by_cases h : k0 = k <;> simp [updateAttr, lookupAttr, h]
  | cons p rest ih =>
    obtain ⟨k1, v1⟩ := p
    by_cases h1 : k1 = k0
    · subst h1
      by_cases h2 : k1 = k <;> simp [updateAttr, lookupAttr, h2]
    · by_cases h2 : k1 = k
      · subst h2
        have h3 : ¬ k0 = k1 := fun hh => h1 hh.symm
        simp [updateAttr, lookupAttr, h1, h3]
      · simp [updateAttr, lookupAttr, h1, h2, ih]

theorem resourceLoop_lookup (rows : List MetaRow) (acc : List (String × String))
    (k : String) :
    lookupAttr (resourceLoop rows acc) k =
      match lookupAttr acc k with
      | some w => some (extendVal w (contributions rows k))
      | none =>
        match contributions rows k with
        | [] => none
        | v :: vs => some (extendVal v vs) := by
  induction rows generalizing acc with
  | nil =>
    have hc : contributions [] k = [] := rfl
    rw [hc]
    cases hl : lookupAttr acc k <;> simp [resourceLoop, extendVal, hl]
  | cons r rs ih =>
    rw [contributions_cons]
    cases hre : rowEntry r with
    | none => simp only [resourceLoop, hre, ih]
    | some p =>
      obtain ⟨k1, v1⟩ := p
      simp only [resourceLoop, hre]
      rw [ih (updateAttr acc k1 v1), lookupAttr_updateAttr]
      by_cases h : k1 = k
      · subst h
        simp only [if_pos rfl]
        cases hl : lookupAttr acc k1 with
        | some w =>
          have : extendVal (w ++ ", " ++ v1) (contributions rs k1) =
              extendVal w (v1 :: contributions rs k1) := rfl
          simp [this]
        | none => rfl
      · simp only [if_neg h]

end Repositum

namespace Repositum

/-- C3 counterexample: in the row loop of get_thesis_info, a row whose
label element is present (with an allow-listed label) but whose value
element is missing is not skipped: the unguarded dereference of the value
find result raises an AttributeError. -/
theorem thesisRows_missing_value_raises :
    thesisRowsLoop [⟨some ⟨"dc.subject"⟩, none⟩] [] =
      Except.error "AttributeError: NoneType object has no attribute text" := rfl

/-- C3 amended: get_resource_attributes skips, without error, every row
missing the label or the value element, and such a row contributes
nothing; the row loop of get_thesis_info skips rows missing the label
element, but a row whose label element is present while the value element
is missing raises an AttributeError instead of being skipped. -/
theorem row_skip_behavior :
    (∀ (pre post : List MetaRow) (r : MetaRow),
        (r.label = none ∨ r.value = none) →
        get_resource_attributes (pre ++ r :: post) =
          get_resource_attributes (pre ++ post))
    ∧ (∀ (pre post : List MetaRow) (r : MetaRow) (acc : List (String × String)),
        r.label = none →
        thesisRowsLoop (pre ++ r :: post) acc = thesisRowsLoop (pre ++ post) acc)
    ∧ (∀ (pre post : List MetaRow) (r : MetaRow) (l : BTag)
        (acc acc2 : List (String × String)),
        thesisRowsLoop pre acc = Except.ok acc2 →
        r.label = some l → r.value = none →
        thesisRowsLoop (pre ++ r :: post) acc =
          Except.error "AttributeError: NoneType object has no attribute text") := by
  refine ⟨?_, ?_, ?_⟩
  · intro pre post r h
    have hre : rowEntry r = none := by
      obtain ⟨lab, val⟩ := r
      rcases h with h | h
      · have h2 : lab = none := h
        subst h2; rfl
      · have h2 : val = none := h
        subst h2; cases lab <;> rfl
    unfold get_resource_attributes
    rw [resourceLoop_append, resourceLoop_append]
    simp only [resourceLoop, hre]
  · intro pre post r acc h
    rw [thesisRowsLoop_append, thesisRowsLoop_append]
    cases hp : thesisRowsLoop pre acc with
    | error e => rfl
    | ok a => simp only [thesisRowsLoop, h]
  · intro pre post r l acc acc2 hpre hl hv
    rw [thesisRowsLoop_append, hpre]
    simp only [thesisRowsLoop, hl, hv]

/-- Witness for the amended C3 at concrete rows: a label-less row is
dropped by both extractors, and a value-less labelled row raises in the
thesis loop. -/
theorem row_skip_behavior_witness :
    (get_resource_attributes [⟨none, some ⟨"v"⟩⟩] = get_resource_attributes [])
    ∧ (thesisRowsLoop [⟨none, some ⟨"v"⟩⟩] [] = thesisRowsLoop [] [])
    ∧ (thesisRowsLoop [⟨some ⟨"dc.type"⟩, none⟩] [] =
        Except.error "AttributeError: NoneType object has no attribute text") :=
  ⟨row_skip_behavior.1 [] [] ⟨none, some ⟨"v"⟩⟩ (Or.inl rfl),
   row_skip_behavior.2.1 [] [] ⟨none, some ⟨"v"⟩⟩ [] rfl,
   row_skip_behavior.2.2 [] [] ⟨some ⟨"dc.type"⟩, none⟩ ⟨"dc.type"⟩ [] [] rfl rfl rfl⟩

/-- C4: when the same stripped label occurs on N contributing rows, the
value bound to that label by get_resource_attributes is exactly the N
stripped values joined by the separator in document order: values are
appended to, never overwritten. -/
theorem repeated_labels_joined (rows : List MetaRow) (k : String)
    (h : contributions rows k ≠ []) :
    lookupAttr (get_resource_attributes rows) k =
      some (joinComma (contributions rows k)) := by
  unfold get_resource_attributes
  rw [resourceLoop_lookup]
  cases hc : contributions rows k with
  | nil => exact absurd hc h
  | cons v vs =>
    simp only [lookupAttr]
    rw [extendVal_joinComma]

/-- Witness for C4: two rows labelled dc.subject with values a and b
produce the joined value a, b. -/
theorem repeated_labels_joined_witness :
    contributions [(⟨some ⟨"dc.subject"⟩, some ⟨" a "⟩⟩ : MetaRow),
        ⟨some ⟨"dc.subject"⟩, some ⟨"b"⟩⟩] "dc.subject" ≠ []
    ∧ lookupAttr (get_resource_attributes
        [(⟨some ⟨"dc.subject"⟩, some ⟨" a "⟩⟩ : MetaRow),
         ⟨some ⟨"dc.subject"⟩, some ⟨"b"⟩⟩]) "dc.subject" =
      some (joinComma (contributions
        [(⟨some ⟨"dc.subject"⟩, some ⟨" a "⟩⟩ : MetaRow),
         ⟨some ⟨"dc.subject"⟩, some ⟨"b"⟩⟩] "dc.subject")) :=
  ⟨by decide,
   repeated_labels_joined
     [⟨some ⟨"dc.subject"⟩, some ⟨" a "⟩⟩, ⟨some ⟨"dc.subject"⟩, some ⟨"b"⟩⟩]
     "dc.subject" (by decide)⟩

end Repositum

namespace Repositum

/-- Side panel of a publication page: the two optional counter spans are
the results of the find calls by id in get_metrics. -/
structure MetricsPanel where
  viewCounter : Option BTag
  downloadCounter : Option BTag
  deriving DecidableEq

/-- An anchor element: its href attribute (none when absent, in which case
a subscript raises a KeyError) and its string content. -/
structure Anchor where
  href : Option String
  str : Option String
  deriving DecidableEq

/-- Bitstream container of get_pdf_link: firstA is the result of the inner
find for an anchor element. -/
structure LinkDiv where
  firstA : Option Anchor
  deriving DecidableEq

/-- The wrapperDisplayItem region: rowTable is the div of class row found
inside it together with its find_all result of metadata rows; linkDiv is
the bitstream-type container found by get_pdf_link. -/
structure Wrapper where
  rowTable : Option (List MetaRow)
  linkDiv : Option LinkDiv
  deriving DecidableEq

/-- A parsed publication page: the texts of its h1 headings, the optional
wrapperDisplayItem region, and the optional panel-list-right side panel. -/
structure PubDoc where
  h1Texts : List String
  wrapper : Option Wrapper
  panel : Option MetricsPanel
  deriving DecidableEq

/-- Embedding of get_metrics (src/scraping.py:262-283).  When the panel div
is absent the source assigns the sentinel "Panel not found" to both
variables but falls through without returning, and the next statement calls
panel.find on None, raising an AttributeError; the sentinel assignment is
dead.  When the panel exists, each counter independently falls back to its
own sentinel. -/
def get_metrics (soup : PubDoc) : Except String (String × String) :=
  match soup.panel with
  | none => Except.error "AttributeError: NoneType object has no attribute find"
  | some p =>
    let views := match p.viewCounter with
      | some c => pyStrip c.text
      | none => "Views not found"
    let downloads := match p.downloadCounter with
      | some c => pyStrip c.text
      | none => "Downloads not found"
    Except.ok (views, downloads)

/-- Embedding of get_pdf_link (src/scraping.py:285-295).  A missing
container returns a sentinel (bs4 tags are always truthy, so the
`if not link_div` test is a not-None test); a present container with no
anchor raises a TypeError (None is subscripted); an anchor without an href
attribute raises a KeyError.  Errors are not caught. -/
def get_pdf_link (wrapper_display : Wrapper) : Except String String :=
  match wrapper_display.linkDiv with
  | none => Except.ok "No bitstream grid found"
  | some d =>
    match d.firstA with
    | none => Except.error "TypeError: NoneType object is not subscriptable"
    | some a =>
      match a.href with
      | none => Except.error "KeyError: href"
      | some h => Except.ok h

/-- Argument of scrape_publication_page: Python is dynamically typed, so
the id may be an int or any other value (rejected by the isinstance
check). -/
inductive PyIdArg where
  | intId (n : Int)
  | nonInt
  deriving DecidableEq

/-- Observable side effects of the orchestrator, in order: the politeness
delay and the page fetch. -/
inductive Effect where
  | sleep
  | fetch (url : String)
  deriving DecidableEq

/-- A fetched response: HTTP status code and parsed body. -/
structure HttpResponse where
  status : Nat
  doc : PubDoc

/-- Return value of scrape_publication_page: a sentinel string or the
metadata dictionary. -/
inductive PyRet where
  | pyStr (s : String)
  | pyDict (attrs : List (String × String))
  deriving DecidableEq

/-- Models the Python comparison at src/scraping.py:215,
`tag.get_text().strip == "Invalid Identifier"`: `.strip` lacks call
parentheses, so a bound-method object is compared with a string, which is
always False in Python, whatever the heading text is. -/
def pyBoundMethodEqStr (_text _lit : String) : Bool := false

/-- Base address constant from src/scraping.py:18. -/
def DOMAIN : String := "https://repositum.tuwien.at"

/-- Embedding of scrape_publication_page (src/scraping.py:190-239) over a
response oracle; the second component lists the side effects performed, in
order (the sleep precedes the fetch). -/
def scrape_publication_page (world : String → HttpResponse) (id : PyIdArg)
    (path doi_prefix : String) : Except String PyRet × List Effect :=
  match id with
  | PyIdArg.nonInt => (Except.error "ValueError: id must be an integer", [])
  | PyIdArg.intId n =>
    if n < 0 then (Except.error "ValueError: id must be a positive integer", [])
    else if 300000 ≤ n then
      (Except.error "ValueError: id must be less than 300_000", [])
    else
      let link := DOMAIN ++ path ++ doi_prefix ++ toString n ++ "?mode=full"
      let fx : List Effect := [Effect.sleep, Effect.fetch link]
      let page := world link
      if page.status ≠ 200 then
        (Except.ok (PyRet.pyStr ("Negative response: " ++ toString page.status)), fx)
      else
        let soup := page.doc
        if soup.h1Texts.any (fun t => pyBoundMethodEqStr t "Invalid Identifier") then
          (Except.ok (PyRet.pyStr "Invalid Identifier"), fx)
        else
          match soup.wrapper with
          | none => (Except.ok (PyRet.pyStr "No wrapperDisplayItem found"), fx)
          | some w =>
            match w.rowTable with
            | none => (Except.ok (PyRet.pyStr "No row class found"), fx)
            | some rows =>
              if rows.isEmpty then (Except.ok (PyRet.pyStr "No metadata rows found"), fx)
              else
                let attributes := get_resource_attributes rows
                match get_metrics soup with
                | Except.error e => (Except.error e, fx)
                | Except.ok (views, downloads) =>
                  let attributes :=
                    setItem (setItem attributes "Views" views) "Downloads" downloads
                  match get_pdf_link w with
                  | Except.error e => (Except.error e, fx)
                  | Except.ok pdf =>
                    (Except.ok (PyRet.pyDict (setItem attributes "PDF link" pdf)), fx)

/-- C2 (code bug): get_metrics on a page without the panel-list-right div
raises an AttributeError instead of returning the sentinel pair, because
the source assigns the sentinels and then dereferences the None panel
anyway; the claim describes the evident intent. -/
theorem get_metrics_missing_panel_raises :
    get_metrics ⟨[], none, none⟩ =
      Except.error "AttributeError: NoneType object has no attribute find" := rfl

/-- C8: get_pdf_link returns the sentinel when the bitstream container is
absent, raises an uncaught error when the container is present but has no
anchor, and the error propagates out of scrape_publication_page. -/
theorem get_pdf_link_sentinel_or_raise :
    (∀ w : Wrapper, w.linkDiv = none →
        get_pdf_link w = Except.ok "No bitstream grid found")
    ∧ (∀ (w : Wrapper) (d : LinkDiv), w.linkDiv = some d → d.firstA = none →
        get_pdf_link w = Except.error "TypeError: NoneType object is not subscriptable")
    ∧ (∀ (world : String → HttpResponse) (n : Int) (path dp link : String)
        (w : Wrapper) (rows : List MetaRow) (p : MetricsPanel),
        ¬ n < 0 → ¬ 300000 ≤ n →
        link = DOMAIN ++ path ++ dp ++ toString n ++ "?mode=full" →
        (world link).status = 200 →
        (world link).doc.wrapper = some w →
        w.rowTable = some rows → rows.isEmpty = false →
        (world link).doc.panel = some p →
        w.linkDiv = some ⟨none⟩ →
        (scrape_publication_page world (PyIdArg.intId n) path dp).1 =
          Except.error "TypeError: NoneType object is not subscriptable") := by
  refine ⟨?_, ?_, ?_⟩
  · intro w h
    simp only [get_pdf_link, h]
  · intro w d h1 h2
    simp only [get_pdf_link, h1, h2]
  · intro world n path dp link w rows p hn1 hn2 hlink hst hw hrt hre hp hld
    subst hlink
    simp [scrape_publication_page, get_metrics, get_pdf_link, hn1, hn2, hst, hw,
      hrt, hre, hp, hld, pyBoundMethodEqStr]

/-- Witness for C8 at concrete inputs: a wrapper without the container
yields the sentinel; one with an empty-anchor container raises, and the
raise propagates through the orchestrator. -/
theorem get_pdf_link_sentinel_or_raise_witness :
    ((⟨some [⟨some ⟨"k"⟩, some ⟨"v"⟩⟩], none⟩ : Wrapper).linkDiv = none
      ∧ get_pdf_link ⟨some [⟨some ⟨"k"⟩, some ⟨"v"⟩⟩], none⟩ =
          Except.ok "No bitstream grid found")
    ∧ (get_pdf_link ⟨some [⟨some ⟨"k"⟩, some ⟨"v"⟩⟩], some ⟨none⟩⟩ =
        Except.error "TypeError: NoneType object is not subscriptable")
    ∧ ((scrape_publication_page
          (fun _ => ⟨200, ⟨[], some ⟨some [⟨some ⟨"k"⟩, some ⟨"v"⟩⟩], some ⟨none⟩⟩,
            some ⟨none, none⟩⟩⟩)
          (PyIdArg.intId 7) "/handle" "/20.500.12708/").1 =
        Except.error "TypeError: NoneType object is not subscriptable") :=
  ⟨⟨rfl, get_pdf_link_sentinel_or_raise.1 ⟨some [⟨some ⟨"k"⟩, some ⟨"v"⟩⟩], none⟩ rfl⟩,
   get_pdf_link_sentinel_or_raise.2.1 ⟨some [⟨some ⟨"k"⟩, some ⟨"v"⟩⟩], some ⟨none⟩⟩
     ⟨none⟩ rfl rfl,
   get_pdf_link_sentinel_or_raise.2.2
     (fun _ => ⟨200, ⟨[], some ⟨some [⟨some ⟨"k"⟩, some ⟨"v"⟩⟩], some ⟨none⟩⟩,
       some ⟨none, none⟩⟩⟩)
     7 "/handle" "/20.500.12708/"
     (DOMAIN ++ "/handle" ++ "/20.500.12708/" ++ toString (7 : Int) ++ "?mode=full")
     ⟨some [⟨some ⟨"k"⟩, some ⟨"v"⟩⟩], some ⟨none⟩⟩ [⟨some ⟨"k"⟩, some ⟨"v"⟩⟩]
     ⟨none, none⟩ (by norm_num) (by norm_num) rfl rfl rfl rfl rfl rfl rfl⟩

/-- C6: an identifier that is not an int, is negative, or is at least
300000 is rejected with a ValueError before any sleep or fetch is
performed: the effect list is empty. -/
theorem scrape_invalid_id_rejected (world : String → HttpResponse)
    (id : PyIdArg) (path dp : String)
    (h : id = PyIdArg.nonInt
      ∨ ∃ n : Int, id = PyIdArg.intId n ∧ (n < 0 ∨ 300000 ≤ n)) :
    ∃ msg, (msg = "ValueError: id must be an integer"
        ∨ msg = "ValueError: id must be a positive integer"
        ∨ msg = "ValueError: id must be less than 300_000")
      ∧ scrape_publication_page world id path dp = (Except.error msg, []) := by
  rcases h with h | ⟨n, hid, hn⟩
  · subst h
    exact ⟨_, Or.inl rfl, rfl⟩
  · subst hid
    rcases hn with hn | hn
    · refine ⟨_, Or.inr (Or.inl rfl), ?_⟩
      simp only [scrape_publication_page, if_pos hn]
    · refine ⟨_, Or.inr (Or.inr rfl), ?_⟩
      have hn2 : ¬ n < 0 := by omega
      simp only [scrape_publication_page, if_neg hn2, if_pos hn]

/-- Witness for C6 at the boundary value 300000 named in the spec. -/
theorem scrape_invalid_id_rejected_witness :
    (PyIdArg.intId 300000 = PyIdArg.nonInt
      ∨ ∃ n : Int, PyIdArg.intId 300000 = PyIdArg.intId n ∧ (n < 0 ∨ 300000 ≤ n))
    ∧ ∃ msg, (msg = "ValueError: id must be an integer"
        ∨ msg = "ValueError: id must be a positive integer"
        ∨ msg = "ValueError: id must be less than 300_000")
      ∧ scrape_publication_page (fun _ => ⟨404, ⟨[], none, none⟩⟩)
          (PyIdArg.intId 300000) "/handle" "/20.500.12708/" =
        (Except.error msg, []) :=
  ⟨Or.inr ⟨300000, rfl, Or.inr (by norm_num)⟩,
   scrape_invalid_id_rejected (fun _ => ⟨404, ⟨[], none, none⟩⟩)
     (PyIdArg.intId 300000) "/handle" "/20.500.12708/"
     (Or.inr ⟨300000, rfl, Or.inr (by norm_num)⟩)⟩

/-- C7 (code bug): a 200 response whose body carries an h1 heading with
text Invalid Identifier does not yield the sentinel, because the source
compares the unapplied strip method with the string (always False); the
scan falls through and the orchestrator proceeds, here reporting the
missing wrapper instead. -/
theorem scrape_invalid_identifier_marker_unreachable :
    (scrape_publication_page
        (fun _ => ⟨200, ⟨["Invalid Identifier"], none, none⟩⟩)
        (PyIdArg.intId 1) "/handle" "/20.500.12708/").1 =
      Except.ok (PyRet.pyStr "No wrapperDisplayItem found")
    ∧ (scrape_publication_page
        (fun _ => ⟨200, ⟨["Invalid Identifier"], none, none⟩⟩)
        (PyIdArg.intId 1) "/handle" "/20.500.12708/").1 ≠
      Except.ok (PyRet.pyStr "Invalid Identifier") := by
  constructor
  · rfl
  · intro h
    rw [show (scrape_publication_page
        (fun _ => ⟨200, ⟨["Invalid Identifier"], none, none⟩⟩)
        (PyIdArg.intId 1) "/handle" "/20.500.12708/").1 =
      Except.ok (PyRet.pyStr "No wrapperDisplayItem found") from rfl] at h
    injection h with h2
    injection h2 with h3
    exact absurd h3 (by decide)

end Repositum

namespace Repositum

/-- Models Python s.startswith(p). -/
def strStartsWith (s p : String) : Bool := p.toList.isPrefixOf s.toList

/-- A parsed search-results page: the optional results table with its
href-bearing anchors (find_all with href=True), and the optional pagination
list with its anchors. -/
structure SearchPage where
  table : Option (List Anchor)
  pagination : Option (List Anchor)

/-- Embedding of get_theses_links (src/scraping.py:62-75): collect the href
of every anchor of the results table whose href starts with /handle/. -/
def get_theses_links (soup : SearchPage) : List String :=
  match soup.table with
  | none => []
  | some anchors =>
    (anchors.filterMap (fun a => a.href)).filter (fun h => strStartsWith h "/handle/")

/-- Embedding of next_results_page (src/scraping.py:45-60): when the
pagination list exists and holds an anchor whose string is Next, return its
href (subscripting an anchor without href raises a KeyError); otherwise
none. -/
def next_results_page (soup : SearchPage) : Except String (Option String) :=
  match soup.pagination with
  | none => Except.ok none
  | some anchors =>
    match anchors.find? (fun a => decide (a.str = some "Next")) with
    | none => Except.ok none
    | some a =>
      match a.href with
      | some h => Except.ok (some h)
      | none => Except.error "KeyError: href"

/-- Outcome of the collector loop: the collected links with the number of
politeness delays performed, a propagated error, or fuel exhaustion of the
bounded model of the unbounded while loop. -/
inductive CrawlResult where
  | ok (links : List String) (sleeps : Nat)
  | err (e : String)
  | fuelOut
  deriving DecidableEq

/-- Loop of get_all_theses_links (src/scraping.py:77-95), as a fuel-indexed
recursion: each iteration appends the links of the current page, and when a next page
exists it sleeps once and fetches it. -/
def crawlLoop (world : String → SearchPage) : Nat → SearchPage → CrawlResult
  | 0, _ => CrawlResult.fuelOut
  | Nat.succ fuel, soup =>
    let links := get_theses_links soup
    match next_results_page soup with
    | Except.error e => CrawlResult.err e
    | Except.ok none => CrawlResult.ok links 0
    | Except.ok (some nxt) =>
      match crawlLoop world fuel (world nxt) with
      | CrawlResult.ok more sleeps => CrawlResult.ok (links ++ more) (sleeps + 1)
      | r => r

/-- Embedding of get_all_theses_links (src/scraping.py:77-95) over a fetch
oracle. -/
def get_all_theses_links (world : String → SearchPage) (fuel : Nat)
    (start_page : String) : CrawlResult :=
  crawlLoop world fuel (world start_page)

/-- C9: on a two-page result set (page one announces a next page, page two
does not) the collector returns the links of both pages concatenated in order
and sleeps exactly once, between the two fetches. -/
theorem get_all_theses_links_two_pages (world : String → SearchPage)
    (start url2 : String) (fuel : Nat) (hfuel : 2 ≤ fuel)
    (h1 : next_results_page (world start) = Except.ok (some url2))
    (h2 : next_results_page (world url2) = Except.ok none) :
    get_all_theses_links world fuel start =
      CrawlResult.ok (get_theses_links (world start) ++ get_theses_links (world url2)) 1 := by
  obtain ⟨k, hk⟩ : ∃ k, fuel = k + 2 := ⟨fuel - 2, by omega⟩
  subst hk
  unfold get_all_theses_links
  show crawlLoop world (Nat.succ (k + 1)) (world start) = _
  unfold crawlLoop
  rw [h1]
  show (match crawlLoop world (Nat.succ k) (world url2) with
    | CrawlResult.ok more sleeps =>
        CrawlResult.ok (get_theses_links (world start) ++ more) (sleeps + 1)
    | r => r) = _
  unfold crawlLoop
  rw [h2]

/-- Witness for C9: a concrete two-page world with one /handle/ link per
page. -/
theorem get_all_theses_links_two_pages_witness :
    next_results_page
        ((fun u => if u = "page2"
            then (⟨some [⟨some "/handle/2", none⟩], none⟩ : SearchPage)
            else ⟨some [⟨some "/handle/1", none⟩],
              some [⟨some "page2", some "Next"⟩]⟩) "page1") =
      Except.ok (some "page2")
    ∧ next_results_page
        ((fun u => if u = "page2"
            then (⟨some [⟨some "/handle/2", none⟩], none⟩ : SearchPage)
            else ⟨some [⟨some "/handle/1", none⟩],
              some [⟨some "page2", some "Next"⟩]⟩) "page2") =
      Except.ok none
    ∧ get_all_theses_links
        (fun u => if u = "page2"
            then (⟨some [⟨some "/handle/2", none⟩], none⟩ : SearchPage)
            else ⟨some [⟨some "/handle/1", none⟩],
              some [⟨some "page2", some "Next"⟩]⟩) 2 "page1" =
      CrawlResult.ok ["/handle/1", "/handle/2"] 1 := by
  refine ⟨rfl, rfl, ?_⟩
  have h := get_all_theses_links_two_pages
    (fun u => if u = "page2"
        then (⟨some [⟨some "/handle/2", none⟩], none⟩ : SearchPage)
        else ⟨some [⟨some "/handle/1", none⟩],
          some [⟨some "page2", some "Next"⟩]⟩)
    "page1" "page2" 2 (by norm_num) rfl rfl
  rw [h]
  decide

end Repositum
